import Mathlib

/-!
Verification of the qiskit-ignis calibration module (parameter table,
instruction/schedule resolution, data-processing chain, curve-fit runner).

The development shallowly embeds the Python sources:
  * `instruction_data/parameter_table.py` (`PulseParameterTable`)
  * `instruction_data/gate_and_schedules_definition.py` (`InstructionsDefinition`)
  * `instruction_data/compiler.py` (`NodeVisitor`)
  * `data_processing/base.py` and `data_processing/interface.py`
  * `analysis/cal_1d_analysis.py` (`Calibration1DAnalysis.run`)

Pandas dataframes are embedded as Lean lists of records; pandas `query`
filtering as `List.filter`; `Timestamp` as `Nat`; Python exceptions as
`Except` error values.  Unbounded Python recursion is embedded with an
explicit fuel argument: exhaustion at every fuel witnesses divergence.
-/

/-! ## Parameter table (`parameter_table.py`) -/

/-- Validation status strings of `types.ValidationStatus`
(the enum referenced as `types.Validation` by `parameter_table.py`):
`pass`, `fail`, `none`. -/
inductive Validation where
  | pass
  | fail
  | none_
deriving DecidableEq, Repr

/-- String value of a validation status (`.value` of the Python enum). -/
def Validation.toStr : Validation → String
  | Validation.pass => "pass"
  | Validation.fail => "fail"
  | Validation.none_ => "none"

/-- `types.Validation(status)`: parse a status string, `none` models the
`ValueError` branch. -/
def parseValidation : String → Option Validation
  | "pass" => some Validation.pass
  | "fail" => some Validation.fail
  | "none" => some Validation.none_
  | _ => none

/-- A cell value of the `value` column (`Union[int, float, str]`;
numbers are embedded as rationals). -/
inductive ParamValue where
  | num (q : ℚ)
  | str (s : String)
deriving DecidableEq, Repr

/-- Python `int(...)` truncation toward zero applied to a numeric value
(the `duration` read coercion of `get_parameter`).  `int` applied to a
string is a parse, which no modelled code path reaches; strings are
returned unchanged here. -/
def intCoerce : ParamValue → ParamValue
  | ParamValue.num q => ParamValue.num ((q.num.tdiv (q.den : Int) : Int) : ℚ)
  | ParamValue.str s => ParamValue.str s

/-- One row of `PulseParameterTable._parameter_collection`
(columns `TABLE_COLS` of `parameter_table.py`). -/
structure ParamRecord where
  qubits : List Nat
  channel : String
  pulse_name : String
  calibration_group : String
  scope_id : Option String
  name : String
  value : ParamValue
  validation : Validation
  timestamp : Nat
  exp_id : Option String
deriving DecidableEq, Repr

/-- Python truthiness of an optional string filter argument:
`None` and `""` are falsy, so they disable the filter clause
(`if channel:` etc. in `_find_data`). -/
def activeFilter : Option String → Option String
  | some s => if s = "" then none else some s
  | none => none

/-- Match of a string-valued column against an optional filter. -/
def fieldMatchS (f : Option String) (v : String) : Bool :=
  match activeFilter f with
  | none => true
  | some s => v = s

/-- Match of the (optional-valued) `scope_id` column against an optional
filter: the query `scope_id == "s"` matches only rows whose cell is the
string `s` (a `None` cell never matches). -/
def fieldMatchO (f : Option String) (v : Option String) : Bool :=
  match activeFilter f with
  | none => true
  | some s => v = some s

/-- Match of the `qubits` column: the source guards this filter with
`is not None` (not truthiness), so `some q` always filters. -/
def fieldMatchQ (f : Option (List Nat)) (v : List Nat) : Bool :=
  match f with
  | none => true
  | some q => v = q

/-- `PulseParameterTable._find_data`: conjunction of the requested
equality filters over the record list (arguments in source order). -/
def find_data (tbl : List ParamRecord) (qubits : Option (List Nat))
    (channel pulse_name calibration_group scope_id name validation : Option String) :
    List ParamRecord :=
  tbl.filter (fun r =>
    fieldMatchQ qubits r.qubits &&
    fieldMatchS channel r.channel &&
    fieldMatchS pulse_name r.pulse_name &&
    fieldMatchS calibration_group r.calibration_group &&
    fieldMatchO scope_id r.scope_id &&
    fieldMatchS name r.name &&
    fieldMatchS validation r.validation.toStr)

/-- `valid_data['timestamp'].idxmax()` picks the first row attaining the
maximal timestamp (pandas `idxmax` returns the first occurrence). -/
def idxmaxTimestamp : List ParamRecord → Option ParamRecord
  | [] => none
  | r :: rs => some (rs.foldl (fun best x => if best.timestamp < x.timestamp then x else best) r)

/-- Body of `PulseParameterTable.get_parameter` after the global-fallback
check: filter, exclude `fail` rows, take the latest, coerce `duration`
to int.  (`matched.loc[df_idx]` is the same row as the `valid_data` row
whose index `idxmax` returned.) -/
def getParamCore (tbl : List ParamRecord) (parameter_name pulse_name channel : String)
    (scope_id : Option String) (calibration_group : String) : Option ParamValue :=
  let matched := find_data tbl none (some channel) (some pulse_name)
    (some calibration_group) scope_id (some parameter_name) none
  let valid_data := matched.filter (fun r => r.validation != Validation.fail)
  match idxmaxTimestamp valid_data with
  | none => none
  | some r => if parameter_name = "duration" then some (intCoerce r.value) else some r.value

/-- `PulseParameterTable.get_parameter`.  The recursive global-fallback
call is unrolled once: it is taken exactly when the raw matched set is
empty and the scope is not `"global"`, and the callee's own fallback
guard is then false. -/
def get_parameter (tbl : List ParamRecord) (parameter_name pulse_name channel : String)
    (scope_id : Option String) (calibration_group : String) : Option ParamValue :=
  let matched := find_data tbl none (some channel) (some pulse_name)
    (some calibration_group) scope_id (some parameter_name) none
  if matched.isEmpty ∧ scope_id ≠ some "global" then
    getParamCore tbl parameter_name pulse_name channel (some "global") calibration_group
  else
    getParamCore tbl parameter_name pulse_name channel scope_id calibration_group

/-- Errors raised by the table mutators (`CalExpError` messages and the
generic `Exception` of `set_pulse_shape`; `KeyError` of the
channel-qubit map lookup). -/
inductive TableErr where
  | invalidStatus
  | indexOutOfRange
  | shapeAlreadyDefined
  | channelKeyError
deriving DecidableEq, Repr

/-- `PulseParameterTable.get_pulse_shape`. -/
def get_pulse_shape (tbl : List ParamRecord) (pulse_name channel : String)
    (scope_id : Option String) (calibration_group : String) : Option ParamValue :=
  get_parameter tbl "shape" pulse_name channel scope_id calibration_group

/-- `PulseParameterTable.set_pulse_shape`: normalise the scope
(`scope_id or 'global'`, so `None` and `""` become `"global"`), raise if
a `shape` row for the key already exists, else append the new row with
status `none` and the current time. -/
def set_pulse_shape (chmap : String → Option (List Nat)) (tbl : List ParamRecord)
    (pulse_name channel : String) (pulse_shape : ParamValue) (scope_id : Option String)
    (calibration_group : String) (now : Nat) : Except TableErr (List ParamRecord) :=
  let scope : Option String :=
    match scope_id with
    | none => some "global"
    | some s => if s = "" then some "global" else some s
  let existing_entry := find_data tbl none (some channel) (some pulse_name)
    (some calibration_group) scope (some "shape") none
  if existing_entry.length > 0 then
    Except.error TableErr.shapeAlreadyDefined
  else
    match chmap channel with
    | none => Except.error TableErr.channelKeyError
    | some qs =>
      Except.ok (tbl ++ [{ qubits := qs,
                           channel := channel,
                           pulse_name := pulse_name,
                           calibration_group := calibration_group,
                           scope_id := scope,
                           name := "shape",
                           value := pulse_shape,
                           validation := Validation.none_,
                           timestamp := now,
                           exp_id := none }])

/-- `PulseParameterTable.set_parameter`: for `parameter_name == 'shape'`
it first runs `set_pulse_shape` (whose exception propagates), and then
unconditionally appends the generic row as well (with the scope as
passed, status `validation or 'none'`, time `timestamp or now`). -/
def set_parameter (chmap : String → Option (List Nat)) (tbl : List ParamRecord)
    (parameter_name pulse_name channel : String) (value : ParamValue)
    (scope_id : Option String) (validation : Option Validation)
    (timestamp : Option Nat) (exp_id : Option String)
    (calibration_group : String) (now : Nat) : Except TableErr (List ParamRecord) := do
  let tbl1 ←
    if parameter_name = "shape" then
      set_pulse_shape chmap tbl pulse_name channel value scope_id calibration_group now
    else
      pure tbl
  match chmap channel with
  | none => Except.error TableErr.channelKeyError
  | some qs =>
    Except.ok (tbl1 ++ [{ qubits := qs,
                          channel := channel,
                          pulse_name := pulse_name,
                          calibration_group := calibration_group,
                          scope_id := scope_id,
                          name := parameter_name,
                          value := value,
                          validation := validation.getD Validation.none_,
                          timestamp := timestamp.getD now,
                          exp_id := exp_id }])

/-- Write helper for `set_validation_status`: in-range update of one row. -/
def setValidationAt : List ParamRecord → Nat → Validation → List ParamRecord
  | [], _, _ => []
  | r :: rs, 0, v => { r with validation := v } :: rs
  | r :: rs, n + 1, v => r :: setValidationAt rs n v

/-- `PulseParameterTable.set_validation_status`: reject an invalid status
string; reject `data_index > len - 1`; a negative index passes the bound
check (`.at` with a fresh negative label enlarges the frame instead of
raising, which we model as leaving the rows unchanged — no error). -/
def set_validation_status (tbl : List ParamRecord) (data_index : Int) (status : String) :
    Except TableErr (List ParamRecord) :=
  match parseValidation status with
  | none => Except.error TableErr.invalidStatus
  | some v =>
    if data_index > (tbl.length : Int) - 1 then
      Except.error TableErr.indexOutOfRange
    else if 0 ≤ data_index then
      Except.ok (setValidationAt tbl data_index.toNat v)
    else
      Except.ok tbl

/-! ## Data-processing chain (`data_processing/base.py`, `nodes.py`,
`interface.py`) -/

/-- `NodeType` of `base.py`. -/
inductive NodeType where
  | kernel
  | discriminator
  | iqdata
  | counts
deriving DecidableEq, Repr

/-- The concrete `AnalysisStep` classes of `nodes.py`. -/
inductive NodeKind where
  | systemKernel
  | systemDiscriminator
  | realNumbers
  | imagNumbers
  | population
deriving DecidableEq, Repr

/-- The `node_type` class attribute set by the decorators of `nodes.py`. -/
def node_type : NodeKind → NodeType
  | NodeKind.systemKernel => NodeType.kernel
  | NodeKind.systemDiscriminator => NodeType.discriminator
  | NodeKind.realNumbers => NodeType.iqdata
  | NodeKind.imagNumbers => NodeType.iqdata
  | NodeKind.population => NodeType.counts

/-- The `prev_node` class-tuple set by the decorators of `nodes.py`
(`SystemKernel` is a root node with an empty tuple). -/
def prev_node : NodeKind → List NodeKind
  | NodeKind.systemKernel => []
  | NodeKind.systemDiscriminator => [NodeKind.systemKernel]
  | NodeKind.realNumbers => [NodeKind.systemKernel]
  | NodeKind.imagNumbers => [NodeKind.systemKernel]
  | NodeKind.population => [NodeKind.systemDiscriminator]

/-- Errors raised by chain construction (`CalExpError` messages in
`AnalysisStep.append`). -/
inductive ChainErr where
  | rootNodeErr
  | chainTypeErr
deriving DecidableEq, Repr

/-- `AnalysisStep.append` from node `self` whose descendants are `rest`:
reject a root component (`not component.prev_node`); at the tail check
`isinstance(self, component.prev_node)`; otherwise recurse into the
child.  Returns the whole chain from `self` on success. -/
def node_append : NodeKind → List NodeKind → NodeKind → Except ChainErr (List NodeKind)
  | self, [], component =>
    if prev_node component = [] then
      Except.error ChainErr.rootNodeErr
    else if self ∈ prev_node component then
      Except.ok [self, component]
    else
      Except.error ChainErr.chainTypeErr
  | self, n :: ns, component =>
    if prev_node component = [] then
      Except.error ChainErr.rootNodeErr
    else
      match node_append n ns component with
      | Except.ok l => Except.ok (self :: l)
      | Except.error e => Except.error e

/-- `DataProcessingSteps.append`: with no root yet, the component is
installed as the root with no check at all; otherwise delegate to
`AnalysisStep.append` on the root. -/
def DataProcessingSteps_append (chain : List NodeKind) (component : NodeKind) :
    Except ChainErr (List NodeKind) :=
  match chain with
  | [] => Except.ok [component]
  | n :: ns => node_append n ns component

/-- Qiskit `MeasLevel` values requested by `meas_level()`. -/
inductive MeasLevel where
  | raw
  | kerneled
  | classified
deriving DecidableEq, Repr

/-- Python-level failures of `meas_level`/`format_data`:
`attributeErr` models `check_kernel(None)` dereferencing `None` on an
empty chain; `calExpErr` the `CalExpError` raised for raw-level data. -/
inductive MeasErr where
  | attributeErr
  | calExpErr
deriving DecidableEq, Repr

/-- `DataProcessingSteps.check_kernel` walking a non-empty chain:
first node whose `node_type` is `KERNEL` (the `[]` case corresponds to
`node.child` being `None`). -/
def check_kernel : List NodeKind → Option NodeKind
  | [] => none
  | n :: ns => if node_type n = NodeType.kernel then some n else check_kernel ns

/-- `DataProcessingSteps.check_discriminator`, analogously. -/
def check_discriminator : List NodeKind → Option NodeKind
  | [] => none
  | n :: ns => if node_type n = NodeType.discriminator then some n else check_discriminator ns

/-- `DataProcessingSteps.meas_level`: classified if a `SystemKernel` and
a `SystemDiscriminator` are stored, kerneled if only a `SystemKernel`,
raw otherwise.  Called on an empty chain (`_root_node is None`) the
source crashes inside `check_kernel` with an `AttributeError`. -/
def meas_level (chain : List NodeKind) : Except MeasErr MeasLevel :=
  match chain with
  | [] => Except.error MeasErr.attributeErr
  | _ :: _ =>
    match check_kernel chain with
    | some k =>
      if k = NodeKind.systemKernel then
        match check_discriminator chain with
        | some d =>
          if d = NodeKind.systemDiscriminator then
            Except.ok MeasLevel.classified
          else
            Except.ok MeasLevel.kerneled
        | none => Except.ok MeasLevel.kerneled
      else
        Except.ok MeasLevel.raw
    | none => Except.ok MeasLevel.raw

/-- The level dispatch of `DataProcessingSteps.format_data` (the data
marshalling itself is external): classified and kerneled levels are
processed, the raw level raises `CalExpError('Raw data analysis is not
supported.')`. -/
def format_data_level (chain : List NodeKind) : Except MeasErr MeasLevel :=
  match meas_level chain with
  | Except.error e => Except.error e
  | Except.ok MeasLevel.classified => Except.ok MeasLevel.classified
  | Except.ok MeasLevel.kerneled => Except.ok MeasLevel.kerneled
  | Except.ok MeasLevel.raw => Except.error MeasErr.calExpErr

/-- Successor validity along a chain whose last node so far is `t`:
each appended node must be non-root and accept `t` as predecessor
(this is exactly what `node_append` enforces). -/
def chainOKFrom : NodeKind → List NodeKind → Bool
  | _, [] => true
  | t, n :: ns =>
    (decide (prev_node n ≠ []) && decide (t ∈ prev_node n)) && chainOKFrom n ns

/-- A chain constructible through `DataProcessingSteps.append`: any root
(installed unchecked), then `node_append`-valid successors. -/
def chainOK : List NodeKind → Bool
  | [] => true
  | n :: ns => chainOKFrom n ns

/-- The chain contains a `SystemKernel` with a `SystemDiscriminator`
strictly downstream of it. -/
def kernelWithDiscriminatorDownstream : List NodeKind → Bool
  | [] => false
  | n :: ns =>
    (decide (n = NodeKind.systemKernel) && ns.contains NodeKind.systemDiscriminator)
      || kernelWithDiscriminatorDownstream ns

/-! ## Schedule DSL and resolution (`compiler.py`,
`gate_and_schedules_definition.py`) -/

/-- AST nodes of the calibration DSL (`compiler.py`): the `Inst` leaves
`PulseInst`, `FrameInst`, `Reference`, and the `ScheduleBlock` node
(merged into one inductive; a parsed program is a `blockElem`). -/
inductive SchedElem where
  | pulseInst (name channel : String)
  | frameInst (name channel : String) (operand : ℚ)
  | reference (name : String) (qubits : List Nat)
  | blockElem (context_type : String) (children : List SchedElem)

/-- A pulse-shape operand produced by `visit_PulseInst`: either a value
bound from the table or a symbolic `circuit.Parameter` placeholder
carrying its composite name. -/
inductive ParamBind where
  | bound (v : ParamValue)
  | freeParam (composite_name : String)
deriving DecidableEq, Repr

/-- The resolved schedule produced by the visitor: `Play` instructions
with their keyword arguments, and alignment blocks (the qiskit
`align_left`/`align_right`/`align_sequential` transforms are external
and kept symbolic). -/
inductive SchedResult where
  | play (pulse_name channel : String) (kwargs : List (String × ParamBind))
  | alignBlock (context_type : String) (children : List SchedResult)

/-- Failures of schedule resolution.  `fuelExhausted` is the fuel model
of the source's unbounded recursion (`visit_Reference` calls
`get_schedule` with no cycle detection): a resolution that exhausts
every fuel is one that never returns in Python. -/
inductive CompileErr where
  | fuelExhausted
  | shapeNotFound
  | frameNotImplemented
  | invalidAlignment
  | scheduleNotFound
deriving DecidableEq, Repr

/-- A row of `InstructionsDefinition._instructions` (gate name, qubits,
its deduplicated scope id index, and the parsed program of its stored
DSL code). -/
structure InstEntry where
  gate_name : String
  qubits : List Nat
  scope_id : String
  program : SchedElem

/-- The state an `InstructionsDefinition` carries: the instruction
table, the pulse parameter table, and the parametric-shape catalogue.

`parametric_shapes s` returns the parameter names of shape `s`.
Modelled from the spec: `utils.get_pulse_parameters` (absent from the
source snapshot) yields the pulse-shape parameters of the
`ParametricPulse` class looked up in `parametric_shapes`. -/
structure InstructionsDef where
  instructions : List InstEntry
  pulse_table : List ParamRecord
  parametric_shapes : String → Option (List String)

/-- Modelled from the spec: `PulseParameterTable.get_full_name` (absent
from the source snapshot) builds the scoped composite parameter name;
the spec's example composite name is `"xp.d0.<scope>.amp"`, i.e.
pulse name, channel, scope id and parameter name joined by dots (the
`calibration_group` argument is accepted but not part of the name). -/
def get_full_name (parameter_name pulse_name channel scope_id : String)
    (_calibration_group : String) : String :=
  pulse_name ++ "." ++ channel ++ "." ++ scope_id ++ "." ++ parameter_name

/-- The per-parameter binding decision inside `visit_PulseInst`:
`if param_val is not None and composite_name not in self._free_parameters`
bind the stored value, else leave a symbolic placeholder. -/
def bindKwarg (tbl : List ParamRecord) (scope_id calibration_group : String)
    (free_parameters : List String) (pulse_name channel pname : String) : ParamBind :=
  let composite_name := get_full_name pname pulse_name channel scope_id calibration_group
  let param_val := get_parameter tbl pname pulse_name channel (some scope_id) calibration_group
  match param_val with
  | some v =>
    if composite_name ∈ free_parameters then ParamBind.freeParam composite_name
    else ParamBind.bound v
  | none => ParamBind.freeParam composite_name

/-- `NodeVisitor.visit_PulseInst`: look up the pulse shape, resolve the
shape's parameter list, and build the `Play` keyword arguments with
`bindKwarg`.  A missing shape row (or a non-string shape value, or a
shape absent from the catalogue) is the `parametric_shapes[shape]`
`KeyError`. -/
def visit_PulseInst (env : InstructionsDef) (scope_id calibration_group : String)
    (free_parameters : List String) (name channel : String) : Except CompileErr SchedResult :=
  match get_pulse_shape env.pulse_table name channel (some scope_id) calibration_group with
  | some (ParamValue.str shape) =>
    match env.parametric_shapes shape with
    | some pnames =>
      Except.ok (SchedResult.play name channel
        (pnames.map (fun p =>
          (p, bindKwarg env.pulse_table scope_id calibration_group free_parameters name channel p))))
    | none => Except.error CompileErr.shapeNotFound
  | some (ParamValue.num _) => Except.error CompileErr.shapeNotFound
  | none => Except.error CompileErr.shapeNotFound

mutual

/-- The `NodeVisitor.visit` dispatch over one AST node.  `FrameInst`
raises `NotImplementedError`; a `Reference` re-enters
`InstructionsDefinition.get_schedule` with the free parameters forwarded
and the calibration group reset to its `'default'` (the source does not
forward it); a block resolves its children then demands a valid
alignment.  The fuel only decreases on re-entry into `get_schedule`,
mirroring the one unbounded recursion of the source. -/
def visitElem (env : InstructionsDef) (calibration_group : String)
    (free_parameters : List String) (scope_id : String) :
    Nat → SchedElem → Except CompileErr SchedResult
  | _, SchedElem.pulseInst name channel =>
    visit_PulseInst env scope_id calibration_group free_parameters name channel
  | _, SchedElem.frameInst _ _ _ => Except.error CompileErr.frameNotImplemented
  | fuel, SchedElem.reference name qubits =>
    get_schedule env fuel name qubits free_parameters "default"
  | fuel, SchedElem.blockElem context_type children =>
    match visitChildren env calibration_group free_parameters scope_id fuel children with
    | Except.error e => Except.error e
    | Except.ok rs =>
      if context_type = "left" ∨ context_type = "right" ∨ context_type = "seq" then
        Except.ok (SchedResult.alignBlock context_type rs)
      else
        Except.error CompileErr.invalidAlignment
termination_by fuel e => (fuel, 1 + sizeOf e)

/-- Resolution of a block's children in order (the `map(self.visit,
node.children)` of `visit_ScheduleBlock`); the first error propagates. -/
def visitChildren (env : InstructionsDef) (calibration_group : String)
    (free_parameters : List String) (scope_id : String) :
    Nat → List SchedElem → Except CompileErr (List SchedResult)
  | _, [] => Except.ok []
  | fuel, c :: cs =>
    match visitElem env calibration_group free_parameters scope_id fuel c with
    | Except.error e => Except.error e
    | Except.ok r =>
      match visitChildren env calibration_group free_parameters scope_id fuel cs with
      | Except.error e => Except.error e
      | Except.ok rs => Except.ok (r :: rs)
termination_by fuel cs => (fuel, 1 + sizeOf cs)

/-- `InstructionsDefinition.get_schedule`: resolve the scope id of
`(gate_name, qubits)` in the instruction table, then run the visitor on
the stored program under that scope.  The fuel argument bounds the
recursion depth through references; the source has no such bound and no
cycle detection. -/
def get_schedule (env : InstructionsDef) :
    Nat → String → List Nat → List String → String → Except CompileErr SchedResult
  | 0, _, _, _, _ => Except.error CompileErr.fuelExhausted
  | fuel + 1, gate_name, qubits, free_parameter_names, calibration_group =>
    match env.instructions.find? (fun e => e.gate_name == gate_name && e.qubits == qubits) with
    | none => Except.error CompileErr.scheduleNotFound
    | some e =>
      visitElem env calibration_group free_parameter_names e.scope_id fuel e.program
termination_by fuel _ _ _ _ => (fuel, 0)

end

/-! ## Scope-id deduplication
(`InstructionsDefinition._deduplicate_scope_id`) -/

/-- A row of `InstructionsDefinition._instructions` as seen by the
scope-id machinery: the index label (the truncated md5 hex digest,
embedded as a `Nat`) with the gate name and qubits. -/
structure SchedTableEntry where
  scope_id : Nat
  gate_name : String
  qubits : List Nat
deriving DecidableEq, Repr

/-- `self._instructions.loc[temp_id]` on the (unique) index: first entry
carrying the label, `none` for the `KeyError` branch. -/
def lookupEntry (reg : List SchedTableEntry) (i : Nat) : Option SchedTableEntry :=
  reg.find? (fun e => e.scope_id == i)

/-- The loop body of `_deduplicate_scope_id`, with the hash
`md5(f'{gate}.{qubits}:{ident}')[:6]` abstracted as a function `h` of
the gate name, qubits and disambiguator, and the unbounded `while True`
given explicit fuel. -/
def deduplicateAux (h : String → List Nat → Nat → Nat) (reg : List SchedTableEntry)
    (gate_name : String) (qubits : List Nat) : Nat → Nat → Option Nat
  | _, 0 => none
  | ident, fuel + 1 =>
    let temp_id := h gate_name qubits ident
    match lookupEntry reg temp_id with
    | some e =>
      if e.gate_name = gate_name ∧ e.qubits = qubits then
        some temp_id
      else
        deduplicateAux h reg gate_name qubits (ident + 1) fuel
    | none => some temp_id

/-- `InstructionsDefinition._deduplicate_scope_id`: disambiguator starts
at 0. -/
def deduplicate_scope_id (h : String → List Nat → Nat → Nat) (reg : List SchedTableEntry)
    (gate_name : String) (qubits : List Nat) (fuel : Nat) : Option Nat :=
  deduplicateAux h reg gate_name qubits 0 fuel

/-- The registration effect of `InstructionsDefinition._add_schedule` on
the (scope_id, gate_name, qubits) columns: an existing label is
overwritten in place (signature/program only, the key columns are
unchanged), a fresh label appends a new row. -/
def registerEntry (reg : List SchedTableEntry) (gate_name : String) (qubits : List Nat)
    (i : Nat) : List SchedTableEntry :=
  if (lookupEntry reg i).isSome then reg
  else reg ++ [{ scope_id := i, gate_name := gate_name, qubits := qubits }]

/-- The pandas-index invariant: labels of the instruction table are
pairwise distinct. -/
def uniqueIds (reg : List SchedTableEntry) : Prop :=
  reg.Pairwise (fun a b => a.scope_id ≠ b.scope_id)

/-! ## Curve-fit run (`analysis/cal_1d_analysis.py`) -/

/-- The fields of `types.FitResult` relevant to result selection (the
parameter vector and the reduced chi-squared; x/y vectors and standard
deviations are carried along in the source and omitted here). -/
structure CalFitResult where
  fitval : List ℚ
  chisq : ℚ
deriving DecidableEq, Repr

/-- The inner loop of `Calibration1DAnalysis.run` over the initial
guesses of one series.  Each attempt is the outcome of
`scipy.optimize.curve_fit` for one guess: `none` is the `RuntimeError`
of a non-converged fit (caught and passed over), `some fr` a converged
fit with its computed reduced chi-squared.  The running `result` is
replaced when it is `None` or has strictly larger chi-squared. -/
def runSeriesFits (result0 : Option CalFitResult) (attempts : List (Option CalFitResult)) :
    Option CalFitResult :=
  attempts.foldl (fun result att =>
    match att with
    | none => result
    | some fr =>
      match result with
      | none => some fr
      | some best => if best.chisq > fr.chisq then some fr else some best) result0

/-- The series loop of `Calibration1DAnalysis.run`: `result = None` is
initialised once, BEFORE the loop over series (as in the source), and
the running value is carried from one series into the next; after each
series the current `result` is recorded in `self._result[series_key]`. -/
def calibration1DRun (series_data : List (String × List (Option CalFitResult))) :
    List (String × Option CalFitResult) :=
  (series_data.foldl
    (fun (st : List (String × Option CalFitResult) × Option CalFitResult) kv =>
      let result := runSeriesFits st.2 kv.2
      (st.1 ++ [(kv.1, result)], result))
    ([], none)).1

/-! ## Concrete example inputs -/

/-- A channel-qubit map defining the drive channel `d0` on qubit 0. -/
def exChMap : String → Option (List Nat) :=
  fun c => if c = "d0" then some [0] else none

/-- Record builder: an `amp`-style row on `xp`/`d0` in group `default`. -/
def exRec (scope : Option String) (pname : String) (v : ParamValue)
    (val : Validation) (ts : Nat) : ParamRecord :=
  { qubits := [0], channel := "d0", pulse_name := "xp", calibration_group := "default",
    scope_id := scope, name := pname, value := v, validation := val,
    timestamp := ts, exp_id := none }

/-- Three records for one key with timestamps 1 < 2 < 3 and statuses
PASS, PASS, FAIL (the latest-wins scenario). -/
def exTblC1 : List ParamRecord :=
  [exRec (some "abc123") "amp" (ParamValue.num (1/10)) Validation.pass 1,
   exRec (some "abc123") "amp" (ParamValue.num (2/10)) Validation.pass 2,
   exRec (some "abc123") "amp" (ParamValue.num (3/10)) Validation.fail 3]

/-- A FAIL-only record under scope `abc123` next to a PASS record under
`global` (the fallback scenario of C2). -/
def exTblC2 : List ParamRecord :=
  [exRec (some "abc123") "amp" (ParamValue.num (3/10)) Validation.fail 1,
   exRec (some "global") "amp" (ParamValue.num (1/2)) Validation.pass 1]

/-- A table whose only row is under the `global` scope. -/
def exTblGlobal : List ParamRecord :=
  [exRec (some "global") "amp" (ParamValue.num (1/2)) Validation.pass 1]

/-- Cyclic instruction store: gate `A` on qubit 0 references `B`, whose
program references `A` back. -/
def cycEnv : InstructionsDef :=
  { instructions :=
      [{ gate_name := "A", qubits := [0], scope_id := "idA",
         program := SchedElem.blockElem "left" [SchedElem.reference "B" [0]] },
       { gate_name := "B", qubits := [0], scope_id := "idB",
         program := SchedElem.blockElem "left" [SchedElem.reference "A" [0]] }],
    pulse_table := [],
    parametric_shapes := fun _ => none }

/-- A table defining pulse `xp` on `d0` under scope `q0scope`: shape
`gaus` plus an `amp` value. -/
def exTblC8 : List ParamRecord :=
  [exRec (some "q0scope") "shape" (ParamValue.str "gaus") Validation.none_ 1,
   exRec (some "q0scope") "amp" (ParamValue.num (2/25)) Validation.none_ 1]

/-- Environment for the pulse-visit example: the `gaus` shape takes
parameters `duration`, `amp` and `sigma`. -/
def exEnvC8 : InstructionsDef :=
  { instructions := [],
    pulse_table := exTblC8,
    parametric_shapes := fun s =>
      if s = "gaus" then some ["duration", "amp", "sigma"] else none }

/-- Registry with one entry (id 0 for gate `y` on qubit 1) used in the
scope-id witness. -/
def exReg : List SchedTableEntry :=
  [{ scope_id := 0, gate_name := "y", qubits := [1] }]

/-- A hash function that maps disambiguator `n` to id `n` (collides with
`exReg`'s entry at the first attempt). -/
def exHash : String → List Nat → Nat → Nat :=
  fun _ _ ident => ident

/-- A converged fit result used in the fit-run counterexample. -/
def exFit : CalFitResult :=
  { fitval := [1], chisq := 0 }

/-- The table produced by one `set_parameter('shape', ...)` call on an
empty table: the `set_pulse_shape` row followed by the generic row
(here field-for-field identical). -/
def exC9Tbl1 : List ParamRecord :=
  [exRec (some "q0scope") "shape" (ParamValue.str "gaus") Validation.none_ 5,
   exRec (some "q0scope") "shape" (ParamValue.str "gaus") Validation.none_ 5]

/-- Row builder used to state the effect of the table mutators. -/
def mkRow (qs : List Nat) (ch pulse grp : String) (scope : Option String)
    (nm : String) (v : ParamValue) (vd : Validation) (t : Nat) (e : Option String) :
    ParamRecord :=
  { qubits := qs, channel := ch, pulse_name := pulse, calibration_group := grp,
    scope_id := scope, name := nm, value := v, validation := vd, timestamp := t,
    exp_id := e }

/-! ## Helper lemmas -/

/-- A column always matches the filter requesting its own value (an
empty-string filter is disabled and matches trivially). -/
theorem fieldMatchS_self (x : String) : fieldMatchS (some x) x = true := by
  unfold fieldMatchS activeFilter
  by_cases h : x = "" <;> simp [h]

/-- The scope column always matches the filter requesting its value. -/
theorem fieldMatchO_self (s : String) : fieldMatchO (some s) (some s) = true := by
  unfold fieldMatchO activeFilter
  by_cases h : s = "" <;> simp [h]

/-- A disabled (absent) string filter matches every cell. -/
theorem fieldMatchS_none (v : String) : fieldMatchS none v = true := rfl

/-- `find_data` distributes over table concatenation. -/
theorem find_data_append (t1 t2 : List ParamRecord) (q : Option (List Nat))
    (ch pn grp sc nm vl : Option String) :
    find_data (t1 ++ t2) q ch pn grp sc nm vl
      = find_data t1 q ch pn grp sc nm vl ++ find_data t2 q ch pn grp sc nm vl := by
  unfold find_data
  exact List.filter_append t1 t2

/-! ## Claim theorems -/

/-- Claim C1: for every parameter table and key, if the records matching
the key are three with timestamps t1 < t2 < t3 and validation statuses
PASS, PASS, FAIL, then `get_parameter` excludes the FAIL record and
returns the value of the remaining record of maximal timestamp, i.e.
the t2 value (read through the code's `duration` int coercion). -/
theorem get_parameter_latest_wins
    (tbl : List ParamRecord) (pname pulse ch grp : String) (scope : Option String)
    (r1 r2 r3 : ParamRecord)
    (hm : find_data tbl none (some ch) (some pulse) (some grp) scope (some pname) none
      = [r1, r2, r3])
    (ht12 : r1.timestamp < r2.timestamp) (_ht23 : r2.timestamp < r3.timestamp)
    (h1 : r1.validation = Validation.pass) (h2 : r2.validation = Validation.pass)
    (h3 : r3.validation = Validation.fail) :
    get_parameter tbl pname pulse ch scope grp
      = some (if pname = "duration" then intCoerce r2.value else r2.value) := by
  unfold get_parameter getParamCore
  rw [hm]
  simp only [List.isEmpty_cons, Bool.false_eq_true, false_and, if_false, ite_false]
  have hbne : (Validation.pass != Validation.fail) = true := by decide
  simp only [List.filter, h1, h2, h3, hbne]
  simp only [idxmaxTimestamp, List.foldl, if_pos ht12]
  split <;> rfl

/-- Witness for C1: on the concrete three-record table the t2 value
(amp = 2/10) is returned. -/
theorem get_parameter_latest_wins_witness :
    get_parameter exTblC1 "amp" "xp" "d0" (some "abc123") "default"
      = some (ParamValue.num (2/10)) := by
  have h := get_parameter_latest_wins exTblC1 "amp" "xp" "d0" "default" (some "abc123")
    (exRec (some "abc123") "amp" (ParamValue.num (1/10)) Validation.pass 1)
    (exRec (some "abc123") "amp" (ParamValue.num (2/10)) Validation.pass 2)
    (exRec (some "abc123") "amp" (ParamValue.num (3/10)) Validation.fail 3)
    (by rfl) (by decide) (by decide) (by rfl) (by rfl) (by rfl)
  exact h.trans (by simp [exRec])

/-- Claim C2 counterexample: in `exTblC2` the specific scope `abc123`
holds only a FAIL record, so the FAIL-excluded filtered set is empty and
the `global` scope holds an effective value 1/2 — yet `get_parameter`
under `abc123` returns `none` instead of retrying with `global` (the
source checks emptiness of the raw matched set, before FAIL
exclusion). -/
theorem get_parameter_fallback_cex :
    (find_data exTblC2 none (some "d0") (some "xp") (some "default") (some "abc123")
        (some "amp") none).filter (fun r => r.validation != Validation.fail) = []
    ∧ get_parameter exTblC2 "amp" "xp" "d0" (some "global") "default"
        = some (ParamValue.num (1/2))
    ∧ get_parameter exTblC2 "amp" "xp" "d0" (some "abc123") "default" = none := by
  refine ⟨by rfl, by rfl, by rfl⟩

/-- Claim C2 (amended): for a non-`global` scope, the single-hop global
fallback of `get_parameter` is taken exactly when the raw record set
matching the key (FAIL records included) is empty; whenever any record
— valid or FAIL — matches under the specific scope, the result is
computed from the specific scope alone and `global` is not consulted. -/
theorem get_parameter_fallback_on_empty_match
    (tbl : List ParamRecord) (pname pulse ch grp : String) (scope : Option String)
    (hs : scope ≠ some "global") :
    (find_data tbl none (some ch) (some pulse) (some grp) scope (some pname) none = [] →
      get_parameter tbl pname pulse ch scope grp
        = get_parameter tbl pname pulse ch (some "global") grp)
    ∧ (find_data tbl none (some ch) (some pulse) (some grp) scope (some pname) none ≠ [] →
      get_parameter tbl pname pulse ch scope grp
        = getParamCore tbl pname pulse ch scope grp) := by
  constructor
  · intro hempty
    unfold get_parameter
    rw [hempty]
    simp [hs]
  · intro hne
    unfold get_parameter
    rcases hfd : find_data tbl none (some ch) (some pulse) (some grp) scope (some pname) none
      with _ | ⟨a, l⟩
    · exact absurd hfd hne
    · simp

/-- Witness for the amended C2: with no record at all under scope `zzz`,
the lookup equals the `global` lookup. -/
theorem get_parameter_fallback_on_empty_match_witness :
    get_parameter exTblGlobal "amp" "xp" "d0" (some "zzz") "default"
      = get_parameter exTblGlobal "amp" "xp" "d0" (some "global") "default" :=
  (get_parameter_fallback_on_empty_match exTblGlobal "amp" "xp" "d0" "default" (some "zzz")
    (by decide)).1 (by rfl)


/-- Claim C9: a single `set_parameter` call with `parameter_name='shape'`
on a table with no prior `shape` row for the key appends TWO matching
rows — one through the `set_pulse_shape` special path and one through
the unconditional generic append — so any later `set_pulse_shape` (and
hence `define_pulse`) for the same key raises the already-defined
error. -/
theorem set_parameter_shape_appends_twice
    (chmap : String → Option (List Nat)) (tbl : List ParamRecord)
    (pulse ch grp s : String) (shape : ParamValue)
    (validation : Option Validation) (ts : Option Nat) (eid : Option String)
    (now : Nat) (qs : List Nat)
    (hch : chmap ch = some qs) (hs : s ≠ "")
    (h0 : find_data tbl none (some ch) (some pulse) (some grp) (some s) (some "shape") none
      = []) :
    ∃ tbl1, set_parameter chmap tbl "shape" pulse ch shape (some s) validation ts eid grp now
        = Except.ok tbl1
      ∧ (find_data tbl1 none (some ch) (some pulse) (some grp) (some s)
          (some "shape") none).length = 2
      ∧ ∀ shape2 now2,
          set_pulse_shape chmap tbl1 pulse ch shape2 (some s) grp now2
            = Except.error TableErr.shapeAlreadyDefined := by
  have hrow : ∀ (v : ParamValue) (vd : Validation) (t : Nat) (e : Option String),
      find_data [mkRow qs ch pulse grp (some s) "shape" v vd t e]
        none (some ch) (some pulse) (some grp) (some s) (some "shape") none
      = [mkRow qs ch pulse grp (some s) "shape" v vd t e] := by
    intro v vd t e
    unfold find_data
    simp [List.filter, mkRow, fieldMatchQ, fieldMatchS_self, fieldMatchO_self,
      fieldMatchS_none]
  have hshape : set_pulse_shape chmap tbl pulse ch shape (some s) grp now
      = Except.ok (tbl ++ [mkRow qs ch pulse grp (some s) "shape" shape
          Validation.none_ now none]) := by
    unfold set_pulse_shape
    simp only [if_neg hs, h0, hch]
    rfl
  refine ⟨tbl ++ [mkRow qs ch pulse grp (some s) "shape" shape Validation.none_ now none]
    ++ [mkRow qs ch pulse grp (some s) "shape" shape (validation.getD Validation.none_)
        (ts.getD now) eid], ?_, ?_, ?_⟩
  · unfold set_parameter
    simp only [if_pos rfl, hshape, hch]
    rfl
  · rw [find_data_append, find_data_append, h0, hrow, hrow]
    rfl
  · intro shape2 now2
    unfold set_pulse_shape
    simp only [if_neg hs]
    rw [find_data_append, find_data_append, h0, hrow, hrow]
    rfl

/-- Witness for C9: on the empty table the call produces the two-row
table `exC9Tbl1`, on which `set_pulse_shape` then raises. -/
theorem set_parameter_shape_appends_twice_witness :
    set_parameter exChMap [] "shape" "xp" "d0" (ParamValue.str "gaus") (some "q0scope")
        none none none "default" 5 = Except.ok exC9Tbl1
    ∧ (find_data exC9Tbl1 none (some "d0") (some "xp") (some "default") (some "q0scope")
        (some "shape") none).length = 2
    ∧ set_pulse_shape exChMap exC9Tbl1 "xp" "d0" (ParamValue.str "drag") (some "q0scope")
        "default" 7 = Except.error TableErr.shapeAlreadyDefined := by
  obtain ⟨tbl1, h1, h2, h3⟩ := set_parameter_shape_appends_twice exChMap []
    "xp" "d0" "default" "q0scope" (ParamValue.str "gaus") none none none 5 [0]
    (by rfl) (by decide) (by rfl)
  have e : set_parameter exChMap [] "shape" "xp" "d0" (ParamValue.str "gaus")
      (some "q0scope") none none none "default" 5 = Except.ok exC9Tbl1 := by rfl
  have ht : tbl1 = exC9Tbl1 := Except.ok.inj (h1.symm.trans e)
  exact ⟨e, ht ▸ h2, ht ▸ h3 (ParamValue.str "drag") 7⟩

/-- Claim C10: `set_validation_status` checks only the upper bound of
the record index: for a valid status string, an index greater than
`len - 1` raises the out-of-range error, while every negative index
passes the check and no error is raised. -/
theorem set_validation_status_index_bound
    (tbl : List ParamRecord) (status : String) (v : Validation)
    (hv : parseValidation status = some v) (idx : Int) :
    (idx > (tbl.length : Int) - 1 →
      set_validation_status tbl idx status = Except.error TableErr.indexOutOfRange)
    ∧ (idx < 0 → set_validation_status tbl idx status = Except.ok tbl) := by
  simp only [set_validation_status, hv]
  constructor
  · intro h
    rw [if_pos h]
  · intro h
    have h1 : ¬ idx > (tbl.length : Int) - 1 := by omega
    have h2 : ¬ (0 ≤ idx) := by omega
    rw [if_neg h1, if_neg h2]

/-- Witness for C10: on the three-record table, index 5 raises the
out-of-range error and index -3 does not. -/
theorem set_validation_status_index_bound_witness :
    set_validation_status exTblC1 5 "pass" = Except.error TableErr.indexOutOfRange
    ∧ set_validation_status exTblC1 (-3) "pass" = Except.ok exTblC1 :=
  ⟨(set_validation_status_index_bound exTblC1 "pass" Validation.pass (by rfl) 5).1
      (by decide),
   (set_validation_status_index_bound exTblC1 "pass" Validation.pass (by rfl) (-3)).2
      (by decide)⟩

/-- `AnalysisStep.append` along a chain rooted at `self`: the root-node
check on the component, then the tail type check. -/
theorem node_append_eq (self : NodeKind) (rest : List NodeKind) (c t : NodeKind)
    (ht : (self :: rest).getLast? = some t) :
    node_append self rest c =
      (if prev_node c = [] then Except.error ChainErr.rootNodeErr
       else if t ∈ prev_node c then Except.ok ((self :: rest) ++ [c])
       else Except.error ChainErr.chainTypeErr) := by
  induction rest generalizing self with
  | nil =>
    simp only [List.getLast?_singleton, Option.some.injEq] at ht
    subst ht
    unfold node_append
    rfl
  | cons n ns ih =>
    have ht' : (n :: ns).getLast? = some t := by
      rwa [List.getLast?_cons_cons] at ht
    unfold node_append
    rw [ih n ht']
    by_cases hp : prev_node c = []
    · simp [hp]
    · by_cases hm : t ∈ prev_node c
      · simp [if_neg hp, if_pos hm]
      · simp [if_neg hp, if_neg hm]

/-- Claim C4 counterexample: appending a `SystemDiscriminator` to an
EMPTY chain does not raise — `DataProcessingSteps.append` installs it as
the root without any predecessor check. -/
theorem dps_append_discriminator_empty_cex :
    DataProcessingSteps_append [] NodeKind.systemDiscriminator
      = Except.ok [NodeKind.systemDiscriminator] := rfl

/-- Claim C4 (amended): the allowed-predecessor check applies only when
the chain is non-empty.  The first node of an empty chain is installed
as root unchecked (so a `DISCRIMINATOR` appended to an empty chain
succeeds); on a non-empty chain a node is accepted iff it has a
non-empty allowed-predecessor set containing the current tail's kind —
otherwise a root-node or chain-type error is raised at construction
time.  In particular `KERNEL` then `DISCRIMINATOR` succeeds, and a
`DISCRIMINATOR` after a non-`KERNEL` tail raises. -/
theorem dps_append_check (chain : List NodeKind) (c : NodeKind) :
    (chain = [] → DataProcessingSteps_append chain c = Except.ok [c])
    ∧ (∀ t, chain.getLast? = some t →
        DataProcessingSteps_append chain c =
          (if prev_node c = [] then Except.error ChainErr.rootNodeErr
           else if t ∈ prev_node c then Except.ok (chain ++ [c])
           else Except.error ChainErr.chainTypeErr)) := by
  constructor
  · intro h
    subst h
    rfl
  · intro t ht
    cases chain with
    | nil => simp at ht
    | cons n ns => exact node_append_eq n ns c t ht

/-- Witness for C4 (amended): appending `KERNEL` then `DISCRIMINATOR`
succeeds. -/
theorem dps_append_check_witness :
    DataProcessingSteps_append [NodeKind.systemKernel] NodeKind.systemDiscriminator
      = Except.ok [NodeKind.systemKernel, NodeKind.systemDiscriminator] := by
  have h := (dps_append_check [NodeKind.systemKernel] NodeKind.systemDiscriminator).2
    NodeKind.systemKernel (by rfl)
  exact h.trans (by rfl)

/-- `SystemKernel` is the only node class of kernel type. -/
theorem node_type_kernel_iff (n : NodeKind) :
    node_type n = NodeType.kernel ↔ n = NodeKind.systemKernel := by
  cases n <;> simp [node_type]

/-- `SystemDiscriminator` is the only node class of discriminator type. -/
theorem node_type_discr_iff (n : NodeKind) :
    node_type n = NodeType.discriminator ↔ n = NodeKind.systemDiscriminator := by
  cases n <;> simp [node_type]

/-- A kernel can never be appended after another node (its `prev_node`
tuple is empty), so constructible chains carry kernels only at the
root. -/
theorem chainOKFrom_no_kernel (t : NodeKind) (ns : List NodeKind)
    (h : chainOKFrom t ns = true) : NodeKind.systemKernel ∉ ns := by
  induction ns generalizing t with
  | nil => simp
  | cons n ns ih =>
    simp only [chainOKFrom, Bool.and_eq_true, decide_eq_true_eq] at h
    obtain ⟨⟨hp, _⟩, hr⟩ := h
    intro hmem
    rcases List.mem_cons.mp hmem with h1 | h2
    · subst h1
      exact hp rfl
    · exact ih n hr h2

/-- `check_kernel` finds nothing in a kernel-free chain. -/
theorem check_kernel_eq_none (l : List NodeKind) (h : NodeKind.systemKernel ∉ l) :
    check_kernel l = none := by
  induction l with
  | nil => rfl
  | cons n ns ih =>
    simp only [List.mem_cons, not_or] at h
    have hn : ¬ node_type n = NodeType.kernel := by
      intro hk
      exact h.1 ((node_type_kernel_iff n).mp hk).symm
    simp [check_kernel, if_neg hn, ih h.2]

/-- `check_discriminator` returns the system discriminator exactly when
one occurs in the chain. -/
theorem check_discriminator_eq (l : List NodeKind) :
    check_discriminator l =
      (if NodeKind.systemDiscriminator ∈ l then some NodeKind.systemDiscriminator
       else none) := by
  induction l with
  | nil => rfl
  | cons n ns ih =>
    by_cases hn : n = NodeKind.systemDiscriminator
    · subst hn
      simp [check_discriminator, node_type]
    · have hd : ¬ node_type n = NodeType.discriminator := by
        intro hk
        exact hn ((node_type_discr_iff n).mp hk)
      simp [check_discriminator, if_neg hd, ih, List.mem_cons, hn, Ne.symm hn]

/-- A kernel-free chain has no kernel-discriminator pair. -/
theorem kwdd_no_kernel (l : List NodeKind) (h : NodeKind.systemKernel ∉ l) :
    kernelWithDiscriminatorDownstream l = false := by
  induction l with
  | nil => rfl
  | cons n ns ih =>
    simp only [List.mem_cons, not_or] at h
    have hn : n ≠ NodeKind.systemKernel := fun h1 => h.1 h1.symm
    simp [kernelWithDiscriminatorDownstream, hn, ih h.2]

/-- Claim C7: for every non-empty constructible data-processing chain,
`meas_level` requests the classified level iff the chain contains a
system kernel with a system discriminator downstream of it; the
kerneled level iff it contains a system kernel and no such
discriminator; otherwise the raw level is selected, on which
`format_data` raises the unsupported-level `CalExpError`. -/
theorem meas_level_chain_spec (chain : List NodeKind) (hne : chain ≠ [])
    (hok : chainOK chain = true) :
    (meas_level chain = Except.ok MeasLevel.classified ↔
      kernelWithDiscriminatorDownstream chain = true)
    ∧ (meas_level chain = Except.ok MeasLevel.kerneled ↔
      (NodeKind.systemKernel ∈ chain ∧ kernelWithDiscriminatorDownstream chain = false))
    ∧ (meas_level chain = Except.ok MeasLevel.raw →
      format_data_level chain = Except.error MeasErr.calExpErr) := by
  rcases chain with _ | ⟨n, ns⟩
  · exact absurd rfl hne
  · have hokf : chainOKFrom n ns = true := hok
    have hnok : NodeKind.systemKernel ∉ ns := chainOKFrom_no_kernel n ns hokf
    by_cases hn : n = NodeKind.systemKernel
    · subst hn
      have hck : check_kernel (NodeKind.systemKernel :: ns)
          = some NodeKind.systemKernel := by
        simp [check_kernel, node_type]
      have hkwdd : kernelWithDiscriminatorDownstream (NodeKind.systemKernel :: ns)
          = ns.contains NodeKind.systemDiscriminator := by
        simp [kernelWithDiscriminatorDownstream, kwdd_no_kernel ns hnok]
      have hcd : check_discriminator (NodeKind.systemKernel :: ns)
          = check_discriminator ns := by
        simp [check_discriminator, node_type]
      by_cases hd : NodeKind.systemDiscriminator ∈ ns
      · have hcd2 : check_discriminator ns = some NodeKind.systemDiscriminator := by
          rw [check_discriminator_eq]
          simp [hd]
        have hml : meas_level (NodeKind.systemKernel :: ns)
            = Except.ok MeasLevel.classified := by
          simp [meas_level, hck, hcd, hcd2]
        refine ⟨?_, ?_, ?_⟩
        · simp [hml, hkwdd, hd]
        · simp [hml, hkwdd, hd]
        · simp [hml]
      · have hcd2 : check_discriminator ns = none := by
          rw [check_discriminator_eq]
          simp [hd]
        have hml : meas_level (NodeKind.systemKernel :: ns)
            = Except.ok MeasLevel.kerneled := by
          simp [meas_level, hck, hcd, hcd2]
        refine ⟨?_, ?_, ?_⟩
        · simp [hml, hkwdd, hd]
        · simp [hml, hkwdd, hd]
        · simp [hml]
    · have hnk : NodeKind.systemKernel ∉ n :: ns := by
        simp [List.mem_cons, hnok]
        exact fun h1 => hn h1.symm
      have hck : check_kernel (n :: ns) = none := check_kernel_eq_none _ hnk
      have hml : meas_level (n :: ns) = Except.ok MeasLevel.raw := by
        simp [meas_level, hck]
      have hkwdd : kernelWithDiscriminatorDownstream (n :: ns) = false :=
        kwdd_no_kernel _ hnk
      refine ⟨?_, ?_, ?_⟩
      · simp [hml, hkwdd]
      · simp [hml, hnk]
      · intro _
        simp [format_data_level, hml]

/-- Witness for C7: the system kernel-discriminator chain requests the
classified level. -/
theorem meas_level_chain_spec_witness :
    meas_level [NodeKind.systemKernel, NodeKind.systemDiscriminator]
      = Except.ok MeasLevel.classified :=
  (meas_level_chain_spec [NodeKind.systemKernel, NodeKind.systemDiscriminator]
    (by simp) (by rfl)).1.mpr (by rfl)

/-- On the cyclic store, resolving either gate exhausts any fuel: the
mutual recursion `get_schedule → visit_Reference → get_schedule` has no
cycle detection and no base case on this input. -/
theorem cycle_resolution_aux (fuel : Nat) :
    get_schedule cycEnv fuel "A" [0] [] "default" = Except.error CompileErr.fuelExhausted
    ∧ get_schedule cycEnv fuel "B" [0] [] "default"
      = Except.error CompileErr.fuelExhausted := by
  induction fuel with
  | zero => exact ⟨by rw [get_schedule], by rw [get_schedule]⟩
  | succ n ih =>
    have hinstr : cycEnv.instructions =
        [{ gate_name := "A", qubits := [0], scope_id := "idA",
           program := SchedElem.blockElem "left" [SchedElem.reference "B" [0]] },
         { gate_name := "B", qubits := [0], scope_id := "idB",
           program := SchedElem.blockElem "left" [SchedElem.reference "A" [0]] }] := rfl
    constructor
    · rw [get_schedule]
      simp only [hinstr, List.find?]
      simp
      rw [visitElem, visitChildren, visitElem, ih.2]
    · rw [get_schedule]
      simp only [hinstr, List.find?]
      simp
      rw [visitElem, visitChildren, visitElem, ih.1]

/-- Claim C3 (code-bug demonstration): resolving schedule `A` whose
program references `B` whose program references `A` back is neither
detected nor terminates — for EVERY recursion budget the resolution is
still incomplete, i.e. the source recurses forever (in Python it dies
with a `RecursionError` from the interpreter's stack guard rather than
a designed rejection). -/
theorem cyclic_reference_resolution_diverges (fuel : Nat) :
    get_schedule cycEnv fuel "A" [0] [] "default"
      = Except.error CompileErr.fuelExhausted :=
  (cycle_resolution_aux fuel).1

/-- Claim C5 (code-bug demonstration): in `Calibration1DAnalysis.run`
the accumulator `result = None` is initialised OUTSIDE the loop over
series, so a series whose every fit attempt fails to converge is
recorded with the PREVIOUS series' fit result instead of `None`: here
series `"1"`'s only attempt raises, yet it is assigned series `"0"`'s
result. -/
theorem calibration1DRun_leaks_previous_series :
    calibration1DRun [("0", [some exFit]), ("1", [none])]
      = [("0", some exFit), ("1", some exFit)] := rfl

/-- Index lookup over an appended registry: left hits take priority. -/
theorem lookupEntry_append (reg l : List SchedTableEntry) (x : Nat) :
    lookupEntry (reg ++ l) x = (lookupEntry reg x).or (lookupEntry l x) := by
  unfold lookupEntry
  exact List.find?_append

/-- The deduplication loop is stable under registering its own result:
re-running it on the updated registry returns the same id. -/
theorem deduplicateAux_stable (h : String → List Nat → Nat → Nat)
    (reg : List SchedTableEntry) (g : String) (q : List Nat) :
    ∀ fuel ident i, deduplicateAux h reg g q ident fuel = some i →
      deduplicateAux h (registerEntry reg g q i) g q ident fuel = some i := by
  intro fuel
  induction fuel with
  | zero =>
    intro ident i hres
    simp [deduplicateAux] at hres
  | succ n ih =>
    intro ident i hres
    rw [deduplicateAux] at hres
    cases hl : lookupEntry reg (h g q ident) with
    | some e =>
      simp only [hl] at hres
      by_cases hpair : e.gate_name = g ∧ e.qubits = q
      · rw [if_pos hpair] at hres
        have hi : h g q ident = i := Option.some.inj hres
        have hri : lookupEntry reg i = some e := hi ▸ hl
        have hreg : registerEntry reg g q i = reg := by
          rw [registerEntry, if_pos (by simp [hri])]
        rw [deduplicateAux, hreg]
        simp only [hl, if_pos hpair]
        exact hres
      · rw [if_neg hpair] at hres
        have ih2 := ih (ident + 1) i hres
        rw [deduplicateAux]
        by_cases hri : (lookupEntry reg i).isSome
        · have hreg : registerEntry reg g q i = reg := by
            rw [registerEntry, if_pos hri]
          rw [hreg] at ih2 ⊢
          simp only [hl, if_neg hpair]
          exact ih2
        · have hreg : registerEntry reg g q i
              = reg ++ [{ scope_id := i, gate_name := g, qubits := q }] := by
            rw [registerEntry, if_neg hri]
          rw [hreg] at ih2 ⊢
          have hl2 : lookupEntry (reg ++ [{ scope_id := i, gate_name := g, qubits := q }])
              (h g q ident) = some e := by
            rw [lookupEntry_append, hl]
            rfl
          simp only [hl2, if_neg hpair]
          exact ih2
    | none =>
      simp only [hl] at hres
      have hi : h g q ident = i := Option.some.inj hres
      have hri : lookupEntry reg i = none := hi ▸ hl
      have hreg : registerEntry reg g q i
          = reg ++ [{ scope_id := i, gate_name := g, qubits := q }] := by
        rw [registerEntry, if_neg (by simp [hri])]
      rw [deduplicateAux, hreg]
      have hl2 : lookupEntry (reg ++ [{ scope_id := i, gate_name := g, qubits := q }])
          (h g q ident) = some { scope_id := i, gate_name := g, qubits := q } := by
        rw [lookupEntry_append, hl, Option.none_or]
        simp [lookupEntry, hi]
      simp only [hl2, if_pos (And.intro rfl rfl)]
      exact hres

/-- The id returned by the deduplication loop never collides with an
existing entry of a different (gate, qubits) pair. -/
theorem deduplicateAux_fresh (h : String → List Nat → Nat → Nat)
    (reg : List SchedTableEntry) (g : String) (q : List Nat) (hwf : uniqueIds reg) :
    ∀ fuel ident i, deduplicateAux h reg g q ident fuel = some i →
      ∀ e ∈ reg, (e.gate_name ≠ g ∨ e.qubits ≠ q) → e.scope_id ≠ i := by
  intro fuel
  induction fuel with
  | zero =>
    intro ident i hres
    simp [deduplicateAux] at hres
  | succ n ih =>
    intro ident i hres e he hne
    rw [deduplicateAux] at hres
    cases hl : lookupEntry reg (h g q ident) with
    | some e0 =>
      simp only [hl] at hres
      by_cases hpair : e0.gate_name = g ∧ e0.qubits = q
      · rw [if_pos hpair] at hres
        have hi : h g q ident = i := Option.some.inj hres
        have he0mem : e0 ∈ reg := List.mem_of_find?_eq_some hl
        have he0id : e0.scope_id = i := by
          have hsome := List.find?_some hl
          simp only [beq_iff_eq] at hsome
          rw [hsome, hi]
        intro heq
        have hne2 : e ≠ e0 := by
          intro hcontra
          subst hcontra
          rcases hne with h1 | h1
          · exact h1 hpair.1
          · exact h1 hpair.2
        have hdist := hwf.forall (fun a b hab => Ne.symm hab) he he0mem hne2
        exact hdist (heq.trans he0id.symm)
      · rw [if_neg hpair] at hres
        exact ih (ident + 1) i hres e he hne
    | none =>
      simp only [hl] at hres
      have hi : h g q ident = i := Option.some.inj hres
      have hmem := List.find?_eq_none.mp hl e he
      intro heq
      apply hmem
      simp [heq, hi]

/-- Claim C6: scope-id resolution is deterministic and collision-safe.
With the truncated hash abstracted as an arbitrary function `h`, if the
`_deduplicate_scope_id` loop terminates with id `i` for `(g, q)` then
(a) after registering `(g, q)` under `i` the loop re-run with the same
arguments returns the same `i` (stability / idempotent re-resolution),
and (b) `i` differs from the id of every registered entry whose
(gate_name, qubits) pair differs from `(g, q)` — collisions having been
skipped by incrementing the disambiguator and re-hashing. -/
theorem deduplicate_scope_id_stable_unique
    (h : String → List Nat → Nat → Nat) (reg : List SchedTableEntry)
    (g : String) (q : List Nat) (fuel i : Nat)
    (hwf : uniqueIds reg)
    (hres : deduplicate_scope_id h reg g q fuel = some i) :
    deduplicate_scope_id h (registerEntry reg g q i) g q fuel = some i
    ∧ ∀ e ∈ reg, (e.gate_name ≠ g ∨ e.qubits ≠ q) → e.scope_id ≠ i :=
  ⟨deduplicateAux_stable h reg g q fuel 0 i hres,
   deduplicateAux_fresh h reg g q hwf fuel 0 i hres⟩

/-- Witness for C6: with the identity-on-disambiguator hash, resolving
`("x", [0])` against a registry holding `("y", [1])` at id 0 collides
once, lands on id 1, is stable after registration, and avoids the
existing entry's id. -/
theorem deduplicate_scope_id_stable_unique_witness :
    deduplicate_scope_id exHash (registerEntry exReg "x" [0] 1) "x" [0] 2 = some 1
    ∧ ({ scope_id := 0, gate_name := "y", qubits := [1] } : SchedTableEntry).scope_id ≠ 1 := by
  have hw := deduplicate_scope_id_stable_unique exHash exReg "x" [0] 2 1
    (by simp [uniqueIds, exReg]) (by rfl)
  refine ⟨hw.1, ?_⟩
  exact hw.2 { scope_id := 0, gate_name := "y", qubits := [1] }
    (by simp [exReg]) (Or.inl (by decide))

/-- Claim C8: in `visit_PulseInst`, every pulse-shape parameter whose
table lookup returns `None` is left as a symbolic placeholder in the
produced `Play` — even when its composite name was NOT in the
caller-supplied free-parameter set — and a stored value is bound exactly
when it exists and the composite name was not requested free. -/
theorem visit_PulseInst_binding (env : InstructionsDef)
    (scope_id calibration_group : String) (free_parameters : List String)
    (name channel shape : String) (pnames : List String)
    (hs : get_pulse_shape env.pulse_table name channel (some scope_id) calibration_group
      = some (ParamValue.str shape))
    (hp : env.parametric_shapes shape = some pnames) :
    visit_PulseInst env scope_id calibration_group free_parameters name channel
      = Except.ok (SchedResult.play name channel (pnames.map (fun p =>
          (p, bindKwarg env.pulse_table scope_id calibration_group free_parameters
            name channel p))))
    ∧ ∀ p, (get_parameter env.pulse_table p name channel (some scope_id) calibration_group
          = none →
        bindKwarg env.pulse_table scope_id calibration_group free_parameters name channel p
          = ParamBind.freeParam (get_full_name p name channel scope_id calibration_group))
      ∧ ∀ v, (bindKwarg env.pulse_table scope_id calibration_group free_parameters
            name channel p = ParamBind.bound v ↔
          (get_parameter env.pulse_table p name channel (some scope_id) calibration_group
              = some v
            ∧ get_full_name p name channel scope_id calibration_group ∉ free_parameters)) := by
  refine ⟨?_, ?_⟩
  · simp only [visit_PulseInst, hs, hp]
  · intro p
    constructor
    · intro hnone
      simp only [bindKwarg, hnone]
    · intro v
      simp only [bindKwarg]
      cases hpv : get_parameter env.pulse_table p name channel (some scope_id)
          calibration_group with
      | none => simp
      | some w =>
        by_cases hmem : get_full_name p name channel scope_id calibration_group
            ∈ free_parameters
        · simp [hmem]
        · simp [hmem]

/-- Witness for C8: with shape `gaus` of parameters duration, amp and
sigma under scope `q0scope`, `amp` is bound from its stored value while
`duration` and `sigma` — which have no stored value — stay symbolic
although neither was requested free. -/
theorem visit_PulseInst_binding_witness :
    visit_PulseInst exEnvC8 "q0scope" "default" [] "xp" "d0"
      = Except.ok (SchedResult.play "xp" "d0"
          [("duration", ParamBind.freeParam "xp.d0.q0scope.duration"),
           ("amp", ParamBind.bound (ParamValue.num (2/25))),
           ("sigma", ParamBind.freeParam "xp.d0.q0scope.sigma")]) := by
  have hw := visit_PulseInst_binding exEnvC8 "q0scope" "default" [] "xp" "d0" "gaus"
    ["duration", "amp", "sigma"] (by rfl) (by rfl)
  rw [hw.1]
  rfl
